import Mathlib

/-!
# The processor factory of video2x (`src/processor_factory.cpp`)

A shallow embedding of `ProcessorFactory`: the registry of creators, the lookup
`create_processor`, and the four creators that `init_default_processors`
registers.

What a call can be observed to do is recorded in an `Outcome`:

* `events`: in program order, every `logger()->critical(...)` call and every
  stage constructor call (`std::make_unique<...>(...)`) made during the call;
* `result`: the returned `std::vector<std::unique_ptr<Processor>>`, or the C++
  exception that left the call.

A constructed stage is represented by the constructor that was called and the
arguments it was called with.  The stage constructors themselves are outside
this file of the repository; they are taken to return normally.
-/

namespace video2x
namespace processors

/-! ## Data model (declared in headers that are not part of `src/`) -/

/-- Modelled from the spec: the enumeration `ProcessorType`, whose declaration is in a header
absent from `src/`.  The spec gives a closed enumeration of four families; the enumerator names
are the ones `processor_factory.cpp` uses. -/
inductive ProcessorType where
  | Libplacebo
  | RealESRGAN
  | RealCUGAN
  | RIFE
  deriving DecidableEq, Repr

/-- Modelled from the spec: `LibplaceboConfig` (ShaderRestore), declared in an absent header.
The field is the one the source reads. -/
structure LibplaceboConfig where
  shader_path : String
  deriving DecidableEq, Repr

/-- Modelled from the spec: `RealESRGANConfig` (NeuralSR-A), declared in an absent header.
The fields are the ones the source reads. -/
structure RealESRGANConfig where
  tta_mode : Bool
  model_name : String
  deriving DecidableEq, Repr

/-- Modelled from the spec: `RealCUGANConfig` (NeuralSR-B), declared in an absent header.
The fields are the ones the source reads. -/
structure RealCUGANConfig where
  tta_mode : Bool
  num_threads : Int
  syncgap : Int
  model_name : String
  deriving DecidableEq, Repr

/-- Modelled from the spec: `RIFEConfig` (FrameInterpolate), declared in an absent header.
The fields are the ones the source reads. -/
structure RIFEConfig where
  tta_mode : Bool
  tta_temporal_mode : Bool
  uhd_mode : Bool
  num_threads : Int
  model_name : String
  deriving DecidableEq, Repr

/-- Modelled from the spec: the payload `std::variant` of `ProcessorConfig`, declared in an absent
header: a sum over seven shapes, four single-family configs and three
`std::pair<family config, RIFEConfig>`. -/
inductive ConfigVariant where
  | libplacebo (c : LibplaceboConfig)
  | realesrgan (c : RealESRGANConfig)
  | realcugan (c : RealCUGANConfig)
  | rife (c : RIFEConfig)
  | libplacebo_rife (p : LibplaceboConfig × RIFEConfig)
  | realesrgan_rife (p : RealESRGANConfig × RIFEConfig)
  | realcugan_rife (p : RealCUGANConfig × RIFEConfig)
  deriving DecidableEq, Repr

/-- Modelled from the spec: `ProcessorConfig`, declared in an absent header: the family tag, the
shared geometry and scale parameters (C++ `int`), and the payload. -/
structure ProcessorConfig where
  processor_type : ProcessorType
  width : Int
  height : Int
  scaling_factor : Int
  noise_level : Int
  config : ConfigVariant
  deriving DecidableEq, Repr

/-- Modelled from the spec: the stage classes derived from `Processor`, declared in absent headers.
A stage is the constructor called in `processor_factory.cpp` together with the arguments passed,
in the order of the call.  `FilterLibplacebo` receives the `uint32_t` device index as it is; the
other three receive it after `static_cast<int>`. -/
inductive Processor where
  | FilterLibplacebo (vk_device_index : Nat) (shader_path : String) (width height : Int)
  | FilterRealesrgan (gpuid : Int) (tta_mode : Bool) (scaling_factor noise_level : Int)
      (model_name : String)
  | FilterRealcugan (gpuid : Int) (tta_mode : Bool)
      (scaling_factor noise_level num_threads syncgap : Int) (model_name : String)
  | InterpolatorRIFE (gpuid : Int) (tta_mode tta_temporal_mode uhd_mode : Bool)
      (num_threads : Int) (model_name : String)
  deriving DecidableEq, Repr

/-- The device index a stage was constructed with, as an integer. -/
def Processor.device : Processor → Int
  | .FilterLibplacebo vk_device_index _ _ _ => (vk_device_index : Int)
  | .FilterRealesrgan gpuid _ _ _ _ => gpuid
  | .FilterRealcugan gpuid _ _ _ _ _ _ => gpuid
  | .InterpolatorRIFE gpuid _ _ _ _ _ => gpuid

/-- Whether a stage is the interpolation stage. -/
def Processor.isInterpolatorRIFE : Processor → Bool
  | .InterpolatorRIFE _ _ _ _ _ _ => true
  | _ => false

/-- Whether a stage is the libplacebo stage. -/
def Processor.isFilterLibplacebo : Processor → Bool
  | .FilterLibplacebo _ _ _ _ => true
  | _ => false

/-! ## Observable effects -/

/-- C++ exceptions that the modelled code can raise. -/
inductive Exception where
  | bad_variant_access
  deriving DecidableEq, Repr

/-- One observable action of a call: a `logger()->critical(fmt, args...)` call, kept as its format
string and integer arguments, or a stage constructor call. -/
inductive Event where
  | critical (fmt : String) (args : List Int)
  | construct (p : Processor)
  deriving DecidableEq, Repr

/-- Whether an event is a critical diagnostic. -/
def Event.isCritical : Event → Bool
  | .critical _ _ => true
  | .construct _ => false

/-- Whether an event is a stage constructor call. -/
def Event.isConstruct : Event → Bool
  | .critical _ _ => false
  | .construct _ => true

/-- What a call did (`events`, in program order) and how it ended (`result`). -/
structure Outcome where
  events : List Event
  result : Except Exception (List Processor)

/-- Number of critical diagnostics emitted during a call. -/
def Outcome.criticals (o : Outcome) : Nat := (o.events.filter Event.isCritical).length

/-- Number of stage constructor calls made during a call. -/
def Outcome.constructions (o : Outcome) : Nat := (o.events.filter Event.isConstruct).length

/-! ## Language-level helpers -/

/-- `static_cast<int>(u)` for a `uint32_t` value `u`: the 32-bit two's complement reading. -/
def static_cast_int (u : Nat) : Int :=
  if u % 2 ^ 32 < 2 ^ 31 then ((u % 2 ^ 32 : Nat) : Int) else ((u % 2 ^ 32 : Nat) : Int) - 2 ^ 32

/-- `std::get_if<LibplaceboConfig>(&v)`. -/
def get_if_LibplaceboConfig : ConfigVariant → Option LibplaceboConfig
  | .libplacebo c => some c
  | _ => none

/-- `std::get_if<std::pair<LibplaceboConfig, RIFEConfig>>(&v)`. -/
def get_if_LibplaceboConfig_RIFEConfig : ConfigVariant → Option (LibplaceboConfig × RIFEConfig)
  | .libplacebo_rife p => some p
  | _ => none

/-- `std::get_if<RealESRGANConfig>(&v)`. -/
def get_if_RealESRGANConfig : ConfigVariant → Option RealESRGANConfig
  | .realesrgan c => some c
  | _ => none

/-- `std::get_if<std::pair<RealESRGANConfig, RIFEConfig>>(&v)`. -/
def get_if_RealESRGANConfig_RIFEConfig : ConfigVariant → Option (RealESRGANConfig × RIFEConfig)
  | .realesrgan_rife p => some p
  | _ => none

/-- `std::get_if<RealCUGANConfig>(&v)`. -/
def get_if_RealCUGANConfig : ConfigVariant → Option RealCUGANConfig
  | .realcugan c => some c
  | _ => none

/-- `std::get_if<std::pair<RealCUGANConfig, RIFEConfig>>(&v)`. -/
def get_if_RealCUGANConfig_RIFEConfig : ConfigVariant → Option (RealCUGANConfig × RIFEConfig)
  | .realcugan_rife p => some p
  | _ => none

/-- `std::get<RIFEConfig>(v)`: throws `std::bad_variant_access` when `v` holds another
alternative. -/
def get_RIFEConfig : ConfigVariant → Except Exception RIFEConfig
  | .rife c => .ok c
  | _ => .error .bad_variant_access

/-! ## The registry -/

/-- `ProcessorFactory::Creator`:
`std::function<std::vector<std::unique_ptr<Processor>>(const ProcessorConfig&, uint32_t)>`. -/
abbrev Creator := ProcessorConfig → Nat → Outcome

/-- `ProcessorFactory`: its one data member, the map `creators` from tag to creator, as a finite
map given by its lookup function. -/
structure ProcessorFactory where
  creators : ProcessorType → Option Creator

/-- A default-constructed `ProcessorFactory`: an empty map. -/
def ProcessorFactory.empty : ProcessorFactory := ⟨fun _ => none⟩

/-- `ProcessorFactory::register_processor`: `creators[type] = std::move(creator);`. -/
def ProcessorFactory.register_processor (self : ProcessorFactory) (type : ProcessorType)
    (creator : Creator) : ProcessorFactory :=
  ⟨fun t => if t = type then some creator else self.creators t⟩

/-- `ProcessorFactory::create_processor` (a `const` member function).  `enum_value` is
`static_cast<int>` on `ProcessorType`, whose enumerator values are declared in an absent header. -/
def ProcessorFactory.create_processor (enum_value : ProcessorType → Int) (self : ProcessorFactory)
    (proc_cfg : ProcessorConfig) (vk_device_index : Nat) : Outcome :=
  match self.creators proc_cfg.processor_type with
  | none =>
    ⟨[.critical "Processor type not registered: \x7b\x7d" [enum_value proc_cfg.processor_type]],
      .ok []⟩
  | some creator => creator proc_cfg vk_device_index

/-! ## The default creators (the four lambdas of `init_default_processors`) -/

/-- The `InterpolatorRIFE` constructor call shared by the four creators. -/
def make_InterpolatorRIFE (vk_device_index : Nat) (cfg : RIFEConfig) : Processor :=
  .InterpolatorRIFE (static_cast_int vk_device_index) cfg.tta_mode cfg.tta_temporal_mode
    cfg.uhd_mode cfg.num_threads cfg.model_name

/-- The creator registered for `ProcessorType::Libplacebo` (source lines 55-104). -/
def libplacebo_creator (proc_cfg : ProcessorConfig) (vk_device_index : Nat) : Outcome :=
  -- `config` and `rife_cfg`, null pointers unless a `get_if` succeeds
  let ptrs : Option LibplaceboConfig × Option RIFEConfig :=
    match get_if_LibplaceboConfig proc_cfg.config with
    | some single_config => (some single_config, none)
    | none =>
      match get_if_LibplaceboConfig_RIFEConfig proc_cfg.config with
      | some pair_config => (some pair_config.1, some pair_config.2)
      | none => (none, none)
  match ptrs.1 with
  | none => ⟨[.critical "Invalid processor configuration for Libplacebo" []], .ok []⟩
  | some config =>
    if config.shader_path = "" then
      ⟨[.critical "Shader path must be provided for the libplacebo filter" []], .ok []⟩
    else if proc_cfg.width ≤ 0 ∨ proc_cfg.height ≤ 0 then
      ⟨[.critical "Output width and height must be provided for the libplacebo filter" []],
        .ok []⟩
    else
      let primary : Processor :=
        .FilterLibplacebo vk_device_index config.shader_path proc_cfg.width proc_cfg.height
      match ptrs.2 with
      | none => ⟨[.construct primary], .ok [primary]⟩
      | some rife_cfg =>
        if rife_cfg.model_name = "" then
          ⟨[.construct primary, .critical "Model name must be provided for the RIFE filter" []],
            .ok []⟩
        else
          ⟨[.construct primary, .construct (make_InterpolatorRIFE vk_device_index rife_cfg)],
            .ok [primary, make_InterpolatorRIFE vk_device_index rife_cfg]⟩

/-- The creator registered for `ProcessorType::RealESRGAN` (source lines 109-157). -/
def realesrgan_creator (proc_cfg : ProcessorConfig) (vk_device_index : Nat) : Outcome :=
  let ptrs : Option RealESRGANConfig × Option RIFEConfig :=
    match get_if_RealESRGANConfig proc_cfg.config with
    | some single_config => (some single_config, none)
    | none =>
      match get_if_RealESRGANConfig_RIFEConfig proc_cfg.config with
      | some pair_config => (some pair_config.1, some pair_config.2)
      | none => (none, none)
  match ptrs.1 with
  | none => ⟨[.critical "Invalid processor configuration for RealESRGAN" []], .ok []⟩
  | some config =>
    if proc_cfg.scaling_factor ≤ 0 then
      ⟨[.critical "Scaling factor must be provided for the RealESRGAN filter" []], .ok []⟩
    else if config.model_name = "" then
      ⟨[.critical "Model name must be provided for the RealESRGAN filter" []], .ok []⟩
    else
      let primary : Processor :=
        .FilterRealesrgan (static_cast_int vk_device_index) config.tta_mode
          proc_cfg.scaling_factor proc_cfg.noise_level config.model_name
      match ptrs.2 with
      | none => ⟨[.construct primary], .ok [primary]⟩
      | some rife_cfg =>
        if rife_cfg.model_name = "" then
          ⟨[.construct primary, .critical "Model name must be provided for the RIFE filter" []],
            .ok []⟩
        else
          ⟨[.construct primary, .construct (make_InterpolatorRIFE vk_device_index rife_cfg)],
            .ok [primary, make_InterpolatorRIFE vk_device_index rife_cfg]⟩

/-- The creator registered for `ProcessorType::RealCUGAN` (source lines 162-212). -/
def realcugan_creator (proc_cfg : ProcessorConfig) (vk_device_index : Nat) : Outcome :=
  let ptrs : Option RealCUGANConfig × Option RIFEConfig :=
    match get_if_RealCUGANConfig proc_cfg.config with
    | some single_config => (some single_config, none)
    | none =>
      match get_if_RealCUGANConfig_RIFEConfig proc_cfg.config with
      | some pair_config => (some pair_config.1, some pair_config.2)
      | none => (none, none)
  match ptrs.1 with
  | none => ⟨[.critical "Invalid processor configuration for RealCUGAN" []], .ok []⟩
  | some config =>
    if proc_cfg.scaling_factor ≤ 0 then
      ⟨[.critical "Scaling factor must be provided for the RealCUGAN filter" []], .ok []⟩
    else if config.model_name = "" then
      ⟨[.critical "Model name must be provided for the RealCUGAN filter" []], .ok []⟩
    else
      let primary : Processor :=
        .FilterRealcugan (static_cast_int vk_device_index) config.tta_mode
          proc_cfg.scaling_factor proc_cfg.noise_level config.num_threads config.syncgap
          config.model_name
      match ptrs.2 with
      | none => ⟨[.construct primary], .ok [primary]⟩
      | some rife_cfg =>
        if rife_cfg.model_name = "" then
          ⟨[.construct primary, .critical "Model name must be provided for the RIFE filter" []],
            .ok []⟩
        else
          ⟨[.construct primary, .construct (make_InterpolatorRIFE vk_device_index rife_cfg)],
            .ok [primary, make_InterpolatorRIFE vk_device_index rife_cfg]⟩

/-- The creator registered for `ProcessorType::RIFE` (source lines 217-234).  The payload is read
with `std::get<RIFEConfig>`, so another alternative ends the call with `std::bad_variant_access`
before anything is logged or constructed. -/
def rife_creator (proc_cfg : ProcessorConfig) (vk_device_index : Nat) : Outcome :=
  match get_RIFEConfig proc_cfg.config with
  | .error e => ⟨[], .error e⟩
  | .ok cfg =>
    if cfg.model_name = "" then
      ⟨[.critical "Model name must be provided for the RIFE filter" []], .ok []⟩
    else
      ⟨[.construct (make_InterpolatorRIFE vk_device_index cfg)],
        .ok [make_InterpolatorRIFE vk_device_index cfg]⟩

/-- `ProcessorFactory::init_default_processors`: four `register_processor` calls, in source
order. -/
def ProcessorFactory.init_default_processors (factory : ProcessorFactory) : ProcessorFactory :=
  (((factory.register_processor .Libplacebo libplacebo_creator).register_processor
    .RealESRGAN realesrgan_creator).register_processor
    .RealCUGAN realcugan_creator).register_processor
    .RIFE rife_creator

/-! ## Creators that write the registry

A creator is a `std::function`, so besides logging and constructing stages it can call
`register_processor` on the registry it is stored in (the singleton is reachable from anywhere).
`register_processor` is the only member function that writes `creators`, so what a creator does
to the registry during one call is a sequence of registrations.  The registry with such creators
is modelled next to the one above; a `Creator` is the case of a creator that registers nothing. -/

/-- A creator together with what it does to the registry: a call yields its outcome and the
`register_processor(type, creator)` calls it made on the registry while it ran, in order. -/
inductive RegisteringCreator where
  | mk (call : ProcessorConfig → Nat → Outcome × List (ProcessorType × RegisteringCreator))

/-- The call of a creator. -/
def RegisteringCreator.call :
    RegisteringCreator → ProcessorConfig → Nat →
      Outcome × List (ProcessorType × RegisteringCreator)
  | .mk call => call

/-- A `Creator` that leaves the registry alone, as the four default creators do. -/
def RegisteringCreator.of_creator (c : Creator) : RegisteringCreator :=
  .mk (fun proc_cfg vk_device_index => (c proc_cfg vk_device_index, []))

/-- The map `creators` of a `ProcessorFactory` whose creators may write it. -/
structure Registry where
  creators : ProcessorType → Option RegisteringCreator

/-- The registry holding the creators of a `ProcessorFactory`, none of which registers. -/
def Registry.of_factory (f : ProcessorFactory) : Registry :=
  ⟨fun t => (f.creators t).map RegisteringCreator.of_creator⟩

/-- `ProcessorFactory::register_processor` on a `Registry`:
`creators[type] = std::move(creator);`. -/
def Registry.register_processor (self : Registry) (type : ProcessorType)
    (creator : RegisteringCreator) : Registry :=
  ⟨fun t => if t = type then some creator else self.creators t⟩

/-- `ProcessorFactory::create_processor` on a `Registry`: the outcome of the call and the registry
after it.  The function itself only looks the creator up and calls it; the registry after the
call is the one before it with the registrations of the called creator applied. -/
def Registry.create_processor (enum_value : ProcessorType → Int) (self : Registry)
    (proc_cfg : ProcessorConfig) (vk_device_index : Nat) : Outcome × Registry :=
  match self.creators proc_cfg.processor_type with
  | none =>
    (⟨[.critical "Processor type not registered: \x7b\x7d" [enum_value proc_cfg.processor_type]],
      .ok []⟩, self)
  | some creator =>
    ((creator.call proc_cfg vk_device_index).1,
      (creator.call proc_cfg vk_device_index).2.foldl
        (fun r reg => r.register_processor reg.1 reg.2) self)

/-! ## The singleton accessor -/

/-- The two function-local statics of `ProcessorFactory::instance`: `factory`, default-constructed,
and `initialized`, initially `false`.  `init_calls` is instrumentation, not program state: it
counts the executions of `init_default_processors` so far. -/
structure Statics where
  factory : ProcessorFactory
  initialized : Bool
  init_calls : Nat

/-- The statics before the first call of `instance`. -/
def Statics.initial : Statics := ⟨ProcessorFactory.empty, false, 0⟩

/-- `ProcessorFactory::instance` run by one thread from entry to return: the statics after the
call; the reference it returns is to the `factory` of that state. -/
def ProcessorFactory.instance_call (s : Statics) : Statics :=
  if !s.initialized then ⟨s.factory.init_default_processors, true, s.init_calls + 1⟩ else s

/-- A call made by a client of the singleton in a sequential run: `ProcessorFactory::instance()`,
or `register_processor(type, creator)` on the registry that `instance()` returned. -/
inductive FactoryCall where
  | get_instance
  | register_processor (type : ProcessorType) (creator : Creator)

/-- The statics after one client call. -/
def FactoryCall.exec (s : Statics) : FactoryCall → Statics
  | .get_instance => ProcessorFactory.instance_call s
  | .register_processor type creator =>
    ⟨s.factory.register_processor type creator, s.initialized, s.init_calls⟩

/-- The statics after a sequence of client calls, in order. -/
def run_calls (s : Statics) (calls : List FactoryCall) : Statics :=
  calls.foldl FactoryCall.exec s

/-- The registry after a client call made once `initialized` is set: `instance()` only returns
it, `register_processor` writes one entry. -/
def FactoryCall.on_registry (f : ProcessorFactory) : FactoryCall → ProcessorFactory
  | .get_instance => f
  | .register_processor type creator => f.register_processor type creator

/-! ### Several threads inside `instance`

The body of `instance` holds no lock and `initialized` is a plain `bool`, so the statements of
two calls can interleave.  Each statement of the body is taken as one step; a schedule says which
thread takes the next step. -/

/-- Program points of the body of `instance`: before the test `if (!initialized)` (line 21),
before the call of `init_default_processors` (line 22), before `initialized = true` (line 23),
before `return factory` (line 26), and after the return. -/
inductive InstancePc where
  | test
  | call_init
  | set_initialized
  | ret
  | returned
  deriving DecidableEq, Repr

/-- One statement of the body of `instance`, executed at program point `pc` on the statics `s`. -/
def instance_step (s : Statics) : InstancePc → Statics × InstancePc
  | .test => if !s.initialized then (s, .call_init) else (s, .ret)
  | .call_init =>
    (⟨s.factory.init_default_processors, s.initialized, s.init_calls + 1⟩, .set_initialized)
  | .set_initialized => (⟨s.factory, true, s.init_calls⟩, .ret)
  | .ret => (s, .returned)
  | .returned => (s, .returned)

/-- Threads that each execute one call of `instance`: the shared statics and the program point of
every thread. -/
structure Threads where
  statics : Statics
  pc : Nat → InstancePc

/-- All threads at the entry of `instance`, before any first call. -/
def Threads.start : Threads := ⟨Statics.initial, fun _ => .test⟩

/-- Thread `tid` executes its next statement. -/
def Threads.step (w : Threads) (tid : Nat) : Threads :=
  ⟨(instance_step w.statics (w.pc tid)).1,
    fun i => if i = tid then (instance_step w.statics (w.pc tid)).2 else w.pc i⟩

/-- The threads after a schedule, the list of the thread ids that step, in order. -/
def Threads.run (w : Threads) (schedule : List Nat) : Threads :=
  schedule.foldl Threads.step w

end processors
end video2x

/-! # Theorems -/

namespace video2x
namespace processors

open ProcessorFactory

/-! ## Dispatch on a registry after `init_default_processors` -/

theorem create_default_Libplacebo (ev : ProcessorType → Int) (f : ProcessorFactory)
    (cfg : ProcessorConfig) (idx : Nat) (h : cfg.processor_type = .Libplacebo) :
    create_processor ev f.init_default_processors cfg idx = libplacebo_creator cfg idx := by
  simp [create_processor, init_default_processors, register_processor, h]

theorem create_default_RealESRGAN (ev : ProcessorType → Int) (f : ProcessorFactory)
    (cfg : ProcessorConfig) (idx : Nat) (h : cfg.processor_type = .RealESRGAN) :
    create_processor ev f.init_default_processors cfg idx = realesrgan_creator cfg idx := by
  simp [create_processor, init_default_processors, register_processor, h]

theorem create_default_RealCUGAN (ev : ProcessorType → Int) (f : ProcessorFactory)
    (cfg : ProcessorConfig) (idx : Nat) (h : cfg.processor_type = .RealCUGAN) :
    create_processor ev f.init_default_processors cfg idx = realcugan_creator cfg idx := by
  simp [create_processor, init_default_processors, register_processor, h]

theorem create_default_RIFE (ev : ProcessorType → Int) (f : ProcessorFactory)
    (cfg : ProcessorConfig) (idx : Nat) (h : cfg.processor_type = .RIFE) :
    create_processor ev f.init_default_processors cfg idx = rife_creator cfg idx := by
  simp [create_processor, init_default_processors, register_processor, h]

/-! ## C1: a RIFE-tagged config with another payload shape -/

/-- C1 (the code departs from the claim): on a registry populated by `init_default_processors`,
a config tagged `RIFE` whose payload is not a bare `RIFEConfig` does not return at all: the call
ends with `std::bad_variant_access`, with nothing logged and nothing constructed. -/
theorem rife_tag_with_other_payload_throws (ev : ProcessorType → Int) (f : ProcessorFactory)
    (cfg : ProcessorConfig) (idx : Nat) (htag : cfg.processor_type = .RIFE)
    (hshape : ∀ c : RIFEConfig, cfg.config ≠ .rife c) :
    create_processor ev f.init_default_processors cfg idx
      = ⟨[], .error .bad_variant_access⟩ := by
  rw [create_default_RIFE ev f cfg idx htag]
  unfold rife_creator
  cases hc : cfg.config with
  | rife c => exact absurd hc (hshape c)
  | _ => rfl

/-- Witness for C1: a `RIFE`-tagged config carrying a `LibplaceboConfig`, and one carrying a
`(RealESRGANConfig, RIFEConfig)` pair. -/
theorem rife_tag_with_other_payload_throws_witness :
    create_processor (fun _ => 0) ProcessorFactory.empty.init_default_processors
        ⟨.RIFE, 1920, 1080, 2, 0, .libplacebo ⟨"upscale.glsl"⟩⟩ 0
      = ⟨[], .error .bad_variant_access⟩
    ∧ create_processor (fun _ => 0) ProcessorFactory.empty.init_default_processors
        ⟨.RIFE, 1920, 1080, 2, 0,
          .realesrgan_rife (⟨false, "realesr-animevideov3"⟩, ⟨false, false, false, 1, "rife-v4.6"⟩)⟩
        0
      = ⟨[], .error .bad_variant_access⟩ :=
  ⟨rife_tag_with_other_payload_throws _ _ _ _ rfl (fun _ h => by cases h),
   rife_tag_with_other_payload_throws _ _ _ _ rfl (fun _ h => by cases h)⟩

/-! ## C2: a payload of another family -/

/-- C2: for each pairable family (Libplacebo, RealESRGAN, RealCUGAN), a config carrying the
family tag whose payload is neither the family config nor the (family config, RIFEConfig) pair
makes `create_processor` on the default registry return the empty sequence after exactly one
action, the critical diagnostic "Invalid processor configuration for <family>"; no stage is
constructed, whatever the other fields are. -/
theorem foreign_payload_is_invalid_configuration (ev : ProcessorType → Int)
    (f : ProcessorFactory) (cfg : ProcessorConfig) (idx : Nat) :
    (cfg.processor_type = .Libplacebo →
      (∀ c, cfg.config ≠ .libplacebo c) → (∀ p, cfg.config ≠ .libplacebo_rife p) →
      create_processor ev f.init_default_processors cfg idx
        = ⟨[.critical "Invalid processor configuration for Libplacebo" []], .ok []⟩)
    ∧ (cfg.processor_type = .RealESRGAN →
      (∀ c, cfg.config ≠ .realesrgan c) → (∀ p, cfg.config ≠ .realesrgan_rife p) →
      create_processor ev f.init_default_processors cfg idx
        = ⟨[.critical "Invalid processor configuration for RealESRGAN" []], .ok []⟩)
    ∧ (cfg.processor_type = .RealCUGAN →
      (∀ c, cfg.config ≠ .realcugan c) → (∀ p, cfg.config ≠ .realcugan_rife p) →
      create_processor ev f.init_default_processors cfg idx
        = ⟨[.critical "Invalid processor configuration for RealCUGAN" []], .ok []⟩) := by
  refine ⟨fun htag h1 h2 => ?_, fun htag h1 h2 => ?_, fun htag h1 h2 => ?_⟩
  · rw [create_default_Libplacebo ev f cfg idx htag]
    unfold libplacebo_creator
    cases hc : cfg.config with
    | libplacebo c => exact absurd hc (h1 c)
    | libplacebo_rife p => exact absurd hc (h2 p)
    | _ => rfl
  · rw [create_default_RealESRGAN ev f cfg idx htag]
    unfold realesrgan_creator
    cases hc : cfg.config with
    | realesrgan c => exact absurd hc (h1 c)
    | realesrgan_rife p => exact absurd hc (h2 p)
    | _ => rfl
  · rw [create_default_RealCUGAN ev f cfg idx htag]
    unfold realcugan_creator
    cases hc : cfg.config with
    | realcugan c => exact absurd hc (h1 c)
    | realcugan_rife p => exact absurd hc (h2 p)
    | _ => rfl

/-- Witness for C2: one foreign payload for each of the three tags; the RealESRGAN one is the
spec scenario of a NeuralSR-A tag with a ShaderRestore payload. -/
theorem foreign_payload_is_invalid_configuration_witness :
    create_processor (fun _ => 0) ProcessorFactory.empty.init_default_processors
        ⟨.Libplacebo, 1920, 1080, 2, 0, .rife ⟨false, false, false, 1, "rife-v4.6"⟩⟩ 0
      = ⟨[.critical "Invalid processor configuration for Libplacebo" []], .ok []⟩
    ∧ create_processor (fun _ => 0) ProcessorFactory.empty.init_default_processors
        ⟨.RealESRGAN, 1920, 1080, 2, 0, .libplacebo ⟨"upscale.glsl"⟩⟩ 0
      = ⟨[.critical "Invalid processor configuration for RealESRGAN" []], .ok []⟩
    ∧ create_processor (fun _ => 0) ProcessorFactory.empty.init_default_processors
        ⟨.RealCUGAN, 1920, 1080, 2, 0,
          .realesrgan_rife (⟨false, "realesr-animevideov3"⟩, ⟨false, false, false, 1, ""⟩)⟩ 0
      = ⟨[.critical "Invalid processor configuration for RealCUGAN" []], .ok []⟩ :=
  ⟨(foreign_payload_is_invalid_configuration _ _ _ _).1 rfl
      (fun _ h => by cases h) (fun _ h => by cases h),
   (foreign_payload_is_invalid_configuration _ _ _ _).2.1 rfl
      (fun _ h => by cases h) (fun _ h => by cases h),
   (foreign_payload_is_invalid_configuration _ _ _ _).2.2 rfl
      (fun _ h => by cases h) (fun _ h => by cases h)⟩

/-! ## C3: well-formed single-family configs -/

/-- C3: for each of the four families, a config with the family tag, the family single payload
and valid required fields (Libplacebo: non-empty shader path, width and height positive;
RealESRGAN, RealCUGAN: scaling factor positive, non-empty model name; RIFE: non-empty model name)
makes `create_processor` on the default registry construct exactly one stage and return the
one-element sequence holding it; the stage is the family stage, built from the parameters of the
config (and the device index). -/
theorem single_config_yields_its_stage (ev : ProcessorType → Int) (f : ProcessorFactory)
    (cfg : ProcessorConfig) (idx : Nat) :
    (∀ c : LibplaceboConfig, cfg.processor_type = .Libplacebo → cfg.config = .libplacebo c →
      c.shader_path ≠ "" → 0 < cfg.width → 0 < cfg.height →
      create_processor ev f.init_default_processors cfg idx
        = ⟨[.construct (.FilterLibplacebo idx c.shader_path cfg.width cfg.height)],
            .ok [.FilterLibplacebo idx c.shader_path cfg.width cfg.height]⟩)
    ∧ (∀ c : RealESRGANConfig, cfg.processor_type = .RealESRGAN → cfg.config = .realesrgan c →
      0 < cfg.scaling_factor → c.model_name ≠ "" →
      create_processor ev f.init_default_processors cfg idx
        = ⟨[.construct (.FilterRealesrgan (static_cast_int idx) c.tta_mode cfg.scaling_factor
              cfg.noise_level c.model_name)],
            .ok [.FilterRealesrgan (static_cast_int idx) c.tta_mode cfg.scaling_factor
              cfg.noise_level c.model_name]⟩)
    ∧ (∀ c : RealCUGANConfig, cfg.processor_type = .RealCUGAN → cfg.config = .realcugan c →
      0 < cfg.scaling_factor → c.model_name ≠ "" →
      create_processor ev f.init_default_processors cfg idx
        = ⟨[.construct (.FilterRealcugan (static_cast_int idx) c.tta_mode cfg.scaling_factor
              cfg.noise_level c.num_threads c.syncgap c.model_name)],
            .ok [.FilterRealcugan (static_cast_int idx) c.tta_mode cfg.scaling_factor
              cfg.noise_level c.num_threads c.syncgap c.model_name]⟩)
    ∧ (∀ c : RIFEConfig, cfg.processor_type = .RIFE → cfg.config = .rife c →
      c.model_name ≠ "" →
      create_processor ev f.init_default_processors cfg idx
        = ⟨[.construct (.InterpolatorRIFE (static_cast_int idx) c.tta_mode c.tta_temporal_mode
              c.uhd_mode c.num_threads c.model_name)],
            .ok [.InterpolatorRIFE (static_cast_int idx) c.tta_mode c.tta_temporal_mode
              c.uhd_mode c.num_threads c.model_name]⟩) := by
  refine ⟨fun c htag hc hp hw hh => ?_, fun c htag hc hs hm => ?_,
    fun c htag hc hs hm => ?_, fun c htag hc hm => ?_⟩
  · rw [create_default_Libplacebo ev f cfg idx htag]
    simp [libplacebo_creator, hc, get_if_LibplaceboConfig, hp, not_le.mpr hw, not_le.mpr hh]
  · rw [create_default_RealESRGAN ev f cfg idx htag]
    simp [realesrgan_creator, hc, get_if_RealESRGANConfig, hm, not_le.mpr hs]
  · rw [create_default_RealCUGAN ev f cfg idx htag]
    simp [realcugan_creator, hc, get_if_RealCUGANConfig, hm, not_le.mpr hs]
  · rw [create_default_RIFE ev f cfg idx htag]
    simp [rife_creator, hc, get_RIFEConfig, hm, make_InterpolatorRIFE]

/-- Witness for C3: one well-formed single config per family, device index 1. -/
theorem single_config_yields_its_stage_witness :
    create_processor (fun _ => 0) ProcessorFactory.empty.init_default_processors
        ⟨.Libplacebo, 1920, 1080, 0, 0, .libplacebo ⟨"upscale.glsl"⟩⟩ 1
      = ⟨[.construct (.FilterLibplacebo 1 "upscale.glsl" 1920 1080)],
          .ok [.FilterLibplacebo 1 "upscale.glsl" 1920 1080]⟩
    ∧ create_processor (fun _ => 0) ProcessorFactory.empty.init_default_processors
        ⟨.RealESRGAN, 0, 0, 4, 3, .realesrgan ⟨true, "realesrgan-plus"⟩⟩ 1
      = ⟨[.construct (.FilterRealesrgan (static_cast_int 1) true 4 3 "realesrgan-plus")],
          .ok [.FilterRealesrgan (static_cast_int 1) true 4 3 "realesrgan-plus"]⟩
    ∧ create_processor (fun _ => 0) ProcessorFactory.empty.init_default_processors
        ⟨.RealCUGAN, 0, 0, 2, -1, .realcugan ⟨false, 2, 3, "models-se"⟩⟩ 1
      = ⟨[.construct (.FilterRealcugan (static_cast_int 1) false 2 (-1) 2 3 "models-se")],
          .ok [.FilterRealcugan (static_cast_int 1) false 2 (-1) 2 3 "models-se"]⟩
    ∧ create_processor (fun _ => 0) ProcessorFactory.empty.init_default_processors
        ⟨.RIFE, 0, 0, 0, 0, .rife ⟨true, false, true, 2, "rife-v4.6"⟩⟩ 1
      = ⟨[.construct (.InterpolatorRIFE (static_cast_int 1) true false true 2 "rife-v4.6")],
          .ok [.InterpolatorRIFE (static_cast_int 1) true false true 2 "rife-v4.6"]⟩ :=
  ⟨(single_config_yields_its_stage _ _ _ _).1 _ rfl rfl (by decide) (by decide) (by decide),
   (single_config_yields_its_stage _ _ _ _).2.1 _ rfl rfl (by decide) (by decide),
   (single_config_yields_its_stage _ _ _ _).2.2.1 _ rfl rfl (by decide) (by decide),
   (single_config_yields_its_stage _ _ _ _).2.2.2 _ rfl rfl (by decide)⟩

/-! ## C4: fully valid paired configs -/

/-- C4: for each pairable family, a config with the family tag, the (family config, RIFEConfig)
pair as payload, valid primary fields and a non-empty interpolation model name makes
`create_processor` on the default registry return a sequence of exactly two stages: first the
primary stage of the family, second the `InterpolatorRIFE` stage built from the paired
`RIFEConfig`. -/
theorem paired_config_yields_primary_then_rife (ev : ProcessorType → Int)
    (f : ProcessorFactory) (cfg : ProcessorConfig) (idx : Nat) (r : RIFEConfig) :
    (∀ c : LibplaceboConfig, cfg.processor_type = .Libplacebo →
      cfg.config = .libplacebo_rife (c, r) →
      c.shader_path ≠ "" → 0 < cfg.width → 0 < cfg.height → r.model_name ≠ "" →
      (create_processor ev f.init_default_processors cfg idx).result
        = .ok [.FilterLibplacebo idx c.shader_path cfg.width cfg.height,
               .InterpolatorRIFE (static_cast_int idx) r.tta_mode r.tta_temporal_mode
                 r.uhd_mode r.num_threads r.model_name])
    ∧ (∀ c : RealESRGANConfig, cfg.processor_type = .RealESRGAN →
      cfg.config = .realesrgan_rife (c, r) →
      0 < cfg.scaling_factor → c.model_name ≠ "" → r.model_name ≠ "" →
      (create_processor ev f.init_default_processors cfg idx).result
        = .ok [.FilterRealesrgan (static_cast_int idx) c.tta_mode cfg.scaling_factor
                 cfg.noise_level c.model_name,
               .InterpolatorRIFE (static_cast_int idx) r.tta_mode r.tta_temporal_mode
                 r.uhd_mode r.num_threads r.model_name])
    ∧ (∀ c : RealCUGANConfig, cfg.processor_type = .RealCUGAN →
      cfg.config = .realcugan_rife (c, r) →
      0 < cfg.scaling_factor → c.model_name ≠ "" → r.model_name ≠ "" →
      (create_processor ev f.init_default_processors cfg idx).result
        = .ok [.FilterRealcugan (static_cast_int idx) c.tta_mode cfg.scaling_factor
                 cfg.noise_level c.num_threads c.syncgap c.model_name,
               .InterpolatorRIFE (static_cast_int idx) r.tta_mode r.tta_temporal_mode
                 r.uhd_mode r.num_threads r.model_name]) := by
  refine ⟨fun c htag hc hp hw hh hr => ?_, fun c htag hc hs hm hr => ?_,
    fun c htag hc hs hm hr => ?_⟩
  · rw [create_default_Libplacebo ev f cfg idx htag]
    simp [libplacebo_creator, hc, get_if_LibplaceboConfig, get_if_LibplaceboConfig_RIFEConfig,
      hp, hr, not_le.mpr hw, not_le.mpr hh, make_InterpolatorRIFE]
  · rw [create_default_RealESRGAN ev f cfg idx htag]
    simp [realesrgan_creator, hc, get_if_RealESRGANConfig, get_if_RealESRGANConfig_RIFEConfig,
      hm, hr, not_le.mpr hs, make_InterpolatorRIFE]
  · rw [create_default_RealCUGAN ev f cfg idx htag]
    simp [realcugan_creator, hc, get_if_RealCUGANConfig, get_if_RealCUGANConfig_RIFEConfig,
      hm, hr, not_le.mpr hs, make_InterpolatorRIFE]

/-- Witness for C4: one fully valid paired config per pairable family, device index 1. -/
theorem paired_config_yields_primary_then_rife_witness :
    (create_processor (fun _ => 0) ProcessorFactory.empty.init_default_processors
        ⟨.Libplacebo, 1920, 1080, 0, 0,
          .libplacebo_rife (⟨"upscale.glsl"⟩, ⟨true, false, true, 2, "rife-v4.6"⟩)⟩ 1).result
      = .ok [.FilterLibplacebo 1 "upscale.glsl" 1920 1080,
             .InterpolatorRIFE (static_cast_int 1) true false true 2 "rife-v4.6"]
    ∧ (create_processor (fun _ => 0) ProcessorFactory.empty.init_default_processors
        ⟨.RealESRGAN, 0, 0, 4, 3,
          .realesrgan_rife (⟨true, "realesrgan-plus"⟩, ⟨true, false, true, 2, "rife-v4.6"⟩)⟩
        1).result
      = .ok [.FilterRealesrgan (static_cast_int 1) true 4 3 "realesrgan-plus",
             .InterpolatorRIFE (static_cast_int 1) true false true 2 "rife-v4.6"]
    ∧ (create_processor (fun _ => 0) ProcessorFactory.empty.init_default_processors
        ⟨.RealCUGAN, 0, 0, 2, -1,
          .realcugan_rife (⟨false, 2, 3, "models-se"⟩, ⟨true, false, true, 2, "rife-v4.6"⟩)⟩
        1).result
      = .ok [.FilterRealcugan (static_cast_int 1) false 2 (-1) 2 3 "models-se",
             .InterpolatorRIFE (static_cast_int 1) true false true 2 "rife-v4.6"] :=
  ⟨(paired_config_yields_primary_then_rife _ _ _ _ _).1 _ rfl rfl
      (by decide) (by decide) (by decide) (by decide),
   (paired_config_yields_primary_then_rife _ _ _ _ _).2.1 _ rfl rfl
      (by decide) (by decide) (by decide),
   (paired_config_yields_primary_then_rife _ _ _ _ _).2.2 _ rfl rfl
      (by decide) (by decide) (by decide)⟩

/-! ## C5: a paired config whose interpolation model name is empty -/

/-- C5: for each pairable family, a config with the family tag and the (family config,
RIFEConfig) pair as payload whose interpolation model name is empty makes `create_processor` on
the default registry return the empty sequence, whatever the primary fields are; a one-element
sequence holding only the primary stage is never returned. -/
theorem paired_config_with_empty_rife_model_yields_nothing (ev : ProcessorType → Int)
    (f : ProcessorFactory) (cfg : ProcessorConfig) (idx : Nat) (r : RIFEConfig)
    (hr : r.model_name = "") :
    (∀ c : LibplaceboConfig, cfg.processor_type = .Libplacebo →
      cfg.config = .libplacebo_rife (c, r) →
      (create_processor ev f.init_default_processors cfg idx).result = .ok [])
    ∧ (∀ c : RealESRGANConfig, cfg.processor_type = .RealESRGAN →
      cfg.config = .realesrgan_rife (c, r) →
      (create_processor ev f.init_default_processors cfg idx).result = .ok [])
    ∧ (∀ c : RealCUGANConfig, cfg.processor_type = .RealCUGAN →
      cfg.config = .realcugan_rife (c, r) →
      (create_processor ev f.init_default_processors cfg idx).result = .ok []) := by
  refine ⟨fun c htag hc => ?_, fun c htag hc => ?_, fun c htag hc => ?_⟩
  · rw [create_default_Libplacebo ev f cfg idx htag]
    simp only [libplacebo_creator, hc, get_if_LibplaceboConfig,
      get_if_LibplaceboConfig_RIFEConfig, hr]
    split_ifs <;> rfl
  · rw [create_default_RealESRGAN ev f cfg idx htag]
    simp only [realesrgan_creator, hc, get_if_RealESRGANConfig,
      get_if_RealESRGANConfig_RIFEConfig, hr]
    split_ifs <;> rfl
  · rw [create_default_RealCUGAN ev f cfg idx htag]
    simp only [realcugan_creator, hc, get_if_RealCUGANConfig,
      get_if_RealCUGANConfig_RIFEConfig, hr]
    split_ifs <;> rfl

/-- Witness for C5: valid primary fields and an empty interpolation model name, one config per
pairable family (the RealCUGAN one is the third scenario of the spec). -/
theorem paired_config_with_empty_rife_model_yields_nothing_witness :
    (create_processor (fun _ => 0) ProcessorFactory.empty.init_default_processors
        ⟨.Libplacebo, 1920, 1080, 0, 0,
          .libplacebo_rife (⟨"upscale.glsl"⟩, ⟨true, false, true, 2, ""⟩)⟩ 1).result = .ok []
    ∧ (create_processor (fun _ => 0) ProcessorFactory.empty.init_default_processors
        ⟨.RealESRGAN, 0, 0, 4, 3,
          .realesrgan_rife (⟨true, "realesrgan-plus"⟩, ⟨true, false, true, 2, ""⟩)⟩
        1).result = .ok []
    ∧ (create_processor (fun _ => 0) ProcessorFactory.empty.init_default_processors
        ⟨.RealCUGAN, 0, 0, 2, -1,
          .realcugan_rife (⟨false, 2, 3, "models-se"⟩, ⟨true, false, true, 2, ""⟩)⟩
        1).result = .ok [] :=
  ⟨(paired_config_with_empty_rife_model_yields_nothing _ _ _ _ _ rfl).1 _ rfl rfl,
   (paired_config_with_empty_rife_model_yields_nothing _ _ _ _ _ rfl).2.1 _ rfl rfl,
   (paired_config_with_empty_rife_model_yields_nothing _ _ _ _ _ rfl).2.2 _ rfl rfl⟩

/-! ## C6: a missing or invalid required field -/

/-- C6: for each of the four families, a config with the family tag and a matching payload (the
family config alone or, for the pairable families, paired with a `RIFEConfig`) in which a
required field of the family is missing or invalid (Libplacebo: empty shader path, width at
most 0 or height at most 0; RealESRGAN, RealCUGAN: scaling factor at most 0 or empty model name;
RIFE: empty model name) makes `create_processor` on the default registry return the empty
sequence without any stage constructor call. -/
theorem invalid_required_field_constructs_nothing (ev : ProcessorType → Int)
    (f : ProcessorFactory) (cfg : ProcessorConfig) (idx : Nat) :
    (∀ c : LibplaceboConfig, cfg.processor_type = .Libplacebo →
      (cfg.config = .libplacebo c ∨ ∃ r, cfg.config = .libplacebo_rife (c, r)) →
      (c.shader_path = "" ∨ cfg.width ≤ 0 ∨ cfg.height ≤ 0) →
      (create_processor ev f.init_default_processors cfg idx).result = .ok []
      ∧ (create_processor ev f.init_default_processors cfg idx).constructions = 0)
    ∧ (∀ c : RealESRGANConfig, cfg.processor_type = .RealESRGAN →
      (cfg.config = .realesrgan c ∨ ∃ r, cfg.config = .realesrgan_rife (c, r)) →
      (cfg.scaling_factor ≤ 0 ∨ c.model_name = "") →
      (create_processor ev f.init_default_processors cfg idx).result = .ok []
      ∧ (create_processor ev f.init_default_processors cfg idx).constructions = 0)
    ∧ (∀ c : RealCUGANConfig, cfg.processor_type = .RealCUGAN →
      (cfg.config = .realcugan c ∨ ∃ r, cfg.config = .realcugan_rife (c, r)) →
      (cfg.scaling_factor ≤ 0 ∨ c.model_name = "") →
      (create_processor ev f.init_default_processors cfg idx).result = .ok []
      ∧ (create_processor ev f.init_default_processors cfg idx).constructions = 0)
    ∧ (∀ c : RIFEConfig, cfg.processor_type = .RIFE → cfg.config = .rife c →
      c.model_name = "" →
      (create_processor ev f.init_default_processors cfg idx).result = .ok []
      ∧ (create_processor ev f.init_default_processors cfg idx).constructions = 0) := by
  refine ⟨fun c htag hc hbad => ?_, fun c htag hc hbad => ?_, fun c htag hc hbad => ?_,
    fun c htag hc hbad => ?_⟩
  · rw [create_default_Libplacebo ev f cfg idx htag]
    rcases hc with hc | ⟨r, hc⟩ <;>
    · simp only [libplacebo_creator, hc, get_if_LibplaceboConfig,
        get_if_LibplaceboConfig_RIFEConfig]
      by_cases hp : c.shader_path = ""
      · simp [hp, Outcome.constructions, Event.isConstruct]
      · have hg : cfg.width ≤ 0 ∨ cfg.height ≤ 0 := hbad.resolve_left hp
        simp [hp, hg, Outcome.constructions, Event.isConstruct]
  · rw [create_default_RealESRGAN ev f cfg idx htag]
    rcases hc with hc | ⟨r, hc⟩ <;>
    · simp only [realesrgan_creator, hc, get_if_RealESRGANConfig,
        get_if_RealESRGANConfig_RIFEConfig]
      by_cases hs : cfg.scaling_factor ≤ 0
      · simp [hs, Outcome.constructions, Event.isConstruct]
      · have hm : c.model_name = "" := hbad.resolve_left hs
        simp [hs, hm, Outcome.constructions, Event.isConstruct]
  · rw [create_default_RealCUGAN ev f cfg idx htag]
    rcases hc with hc | ⟨r, hc⟩ <;>
    · simp only [realcugan_creator, hc, get_if_RealCUGANConfig,
        get_if_RealCUGANConfig_RIFEConfig]
      by_cases hs : cfg.scaling_factor ≤ 0
      · simp [hs, Outcome.constructions, Event.isConstruct]
      · have hm : c.model_name = "" := hbad.resolve_left hs
        simp [hs, hm, Outcome.constructions, Event.isConstruct]
  · rw [create_default_RIFE ev f cfg idx htag]
    simp [rife_creator, hc, get_RIFEConfig, hbad, Outcome.constructions, Event.isConstruct]

/-- Witness for C6: one config per family with an invalid required field: a Libplacebo pair with
height 0, a RealESRGAN config with scaling factor 0 (first scenario of the spec), a RealCUGAN
pair with an empty model name, a RIFE config with an empty model name. -/
theorem invalid_required_field_constructs_nothing_witness :
    ((create_processor (fun _ => 0) ProcessorFactory.empty.init_default_processors
        ⟨.Libplacebo, 1920, 0, 0, 0,
          .libplacebo_rife (⟨"upscale.glsl"⟩, ⟨true, false, true, 2, "rife-v4.6"⟩)⟩ 1).result
        = .ok []
      ∧ (create_processor (fun _ => 0) ProcessorFactory.empty.init_default_processors
        ⟨.Libplacebo, 1920, 0, 0, 0,
          .libplacebo_rife (⟨"upscale.glsl"⟩, ⟨true, false, true, 2, "rife-v4.6"⟩)⟩
        1).constructions = 0)
    ∧ ((create_processor (fun _ => 0) ProcessorFactory.empty.init_default_processors
        ⟨.RealESRGAN, 0, 0, 0, 3, .realesrgan ⟨true, "realesrgan-plus"⟩⟩ 1).result = .ok []
      ∧ (create_processor (fun _ => 0) ProcessorFactory.empty.init_default_processors
        ⟨.RealESRGAN, 0, 0, 0, 3, .realesrgan ⟨true, "realesrgan-plus"⟩⟩ 1).constructions = 0)
    ∧ ((create_processor (fun _ => 0) ProcessorFactory.empty.init_default_processors
        ⟨.RealCUGAN, 0, 0, 2, -1,
          .realcugan_rife (⟨false, 2, 3, ""⟩, ⟨true, false, true, 2, "rife-v4.6"⟩)⟩ 1).result
        = .ok []
      ∧ (create_processor (fun _ => 0) ProcessorFactory.empty.init_default_processors
        ⟨.RealCUGAN, 0, 0, 2, -1,
          .realcugan_rife (⟨false, 2, 3, ""⟩, ⟨true, false, true, 2, "rife-v4.6"⟩)⟩
        1).constructions = 0)
    ∧ ((create_processor (fun _ => 0) ProcessorFactory.empty.init_default_processors
        ⟨.RIFE, 0, 0, 0, 0, .rife ⟨true, false, true, 2, ""⟩⟩ 1).result = .ok []
      ∧ (create_processor (fun _ => 0) ProcessorFactory.empty.init_default_processors
        ⟨.RIFE, 0, 0, 0, 0, .rife ⟨true, false, true, 2, ""⟩⟩ 1).constructions = 0) :=
  ⟨(invalid_required_field_constructs_nothing _ _ _ _).1 _ rfl (Or.inr ⟨_, rfl⟩)
      (Or.inr (Or.inr (by decide))),
   (invalid_required_field_constructs_nothing _ _ _ _).2.1 _ rfl (Or.inl rfl)
      (Or.inl (by decide)),
   (invalid_required_field_constructs_nothing _ _ _ _).2.2.1 _ rfl (Or.inr ⟨_, rfl⟩)
      (Or.inr rfl),
   (invalid_required_field_constructs_nothing _ _ _ _).2.2.2 _ rfl rfl rfl⟩

/-! ## C7, C8, C9: the registry -/

/-- C7: on any registry, for a config whose tag has no registered creator, `create_processor`
returns the empty sequence and its only action is one critical diagnostic, the "Processor type
not registered" message with the integer value of the tag as its argument; the outcome holds no
event of any creator and does not depend on what else is registered. -/
theorem unregistered_tag_yields_one_diagnostic (ev : ProcessorType → Int)
    (f : ProcessorFactory) (cfg : ProcessorConfig) (idx : Nat)
    (h : f.creators cfg.processor_type = none) :
    create_processor ev f cfg idx
        = ⟨[.critical "Processor type not registered: \x7b\x7d" [ev cfg.processor_type]], .ok []⟩
      ∧ (create_processor ev f cfg idx).criticals = 1
      ∧ (create_processor ev f cfg idx).constructions = 0 := by
  have hout : create_processor ev f cfg idx
      = ⟨[.critical "Processor type not registered: \x7b\x7d" [ev cfg.processor_type]],
          .ok []⟩ := by
    simp [create_processor, h]
  rw [hout]
  exact ⟨rfl, rfl, rfl⟩

/-- Witness for C7: a registry holding only a RIFE creator, asked for a RealCUGAN config, with
RealCUGAN given the integer value 3. -/
theorem unregistered_tag_yields_one_diagnostic_witness :
    create_processor (fun t => if t = .RealCUGAN then 3 else 0)
        (ProcessorFactory.empty.register_processor .RIFE rife_creator)
        ⟨.RealCUGAN, 0, 0, 2, -1, .realcugan ⟨false, 2, 3, "models-se"⟩⟩ 1
        = ⟨[.critical "Processor type not registered: \x7b\x7d" [3]], .ok []⟩
      ∧ (create_processor (fun t => if t = .RealCUGAN then 3 else 0)
        (ProcessorFactory.empty.register_processor .RIFE rife_creator)
        ⟨.RealCUGAN, 0, 0, 2, -1, .realcugan ⟨false, 2, 3, "models-se"⟩⟩ 1).criticals = 1
      ∧ (create_processor (fun t => if t = .RealCUGAN then 3 else 0)
        (ProcessorFactory.empty.register_processor .RIFE rife_creator)
        ⟨.RealCUGAN, 0, 0, 2, -1, .realcugan ⟨false, 2, 3, "models-se"⟩⟩ 1).constructions = 0 :=
  unregistered_tag_yields_one_diagnostic _ _ _ _ rfl

/-- C8: on any registry, after `register_processor t c1` followed by `register_processor t c2`,
`create_processor` for a config tagged `t` gives exactly what `c2` gives on the same config and
device index, and the registry is the one obtained by registering `c2` alone: nothing of `c1`
remains (last write wins). -/
theorem reregistration_replaces_creator (ev : ProcessorType → Int) (f : ProcessorFactory)
    (t : ProcessorType) (c1 c2 : Creator) (cfg : ProcessorConfig) (idx : Nat)
    (htag : cfg.processor_type = t) :
    create_processor ev ((f.register_processor t c1).register_processor t c2) cfg idx
        = c2 cfg idx
      ∧ (f.register_processor t c1).register_processor t c2 = f.register_processor t c2 := by
  constructor
  · simp [create_processor, register_processor, htag]
  · simp only [register_processor, ProcessorFactory.mk.injEq]
    funext u
    by_cases hu : u = t <;> simp [hu]

/-- Witness for C8: the default RIFE creator overwritten by a creator that logs and returns
nothing. -/
theorem reregistration_replaces_creator_witness :
    create_processor (fun _ => 0)
        ((ProcessorFactory.empty.register_processor .RIFE rife_creator).register_processor .RIFE
          (fun _ _ => ⟨[.critical "custom" []], .ok []⟩))
        ⟨.RIFE, 0, 0, 0, 0, .rife ⟨true, false, true, 2, "rife-v4.6"⟩⟩ 1
        = (fun _ _ => (⟨[.critical "custom" []], .ok []⟩ : Outcome))
            (⟨.RIFE, 0, 0, 0, 0, .rife ⟨true, false, true, 2, "rife-v4.6"⟩⟩ : ProcessorConfig) 1
      ∧ (ProcessorFactory.empty.register_processor .RIFE rife_creator).register_processor .RIFE
          (fun _ _ => ⟨[.critical "custom" []], .ok []⟩)
        = ProcessorFactory.empty.register_processor .RIFE
          (fun _ _ => ⟨[.critical "custom" []], .ok []⟩) :=
  reregistration_replaces_creator _ _ _ _ _ _ _ rfl

/-- With creators that register nothing, the lookup that succeeds hands the call to the creator
found: the outcome of `create_processor` is the outcome of that creator. -/
theorem create_processor_of_registered (ev : ProcessorType → Int) (f : ProcessorFactory)
    (cfg : ProcessorConfig) (idx : Nat) (c : Creator)
    (h : f.creators cfg.processor_type = some c) :
    create_processor ev f cfg idx = c cfg idx := by
  simp [create_processor, h]

/-- On a registry whose creators register nothing, `create_processor` with the registry passed
through is `create_processor` of the `ProcessorFactory`, and the registry after the call is the
registry before it. -/
theorem create_processor_of_factory (ev : ProcessorType → Int) (f : ProcessorFactory)
    (cfg : ProcessorConfig) (idx : Nat) :
    (Registry.of_factory f).create_processor ev cfg idx
      = (create_processor ev f cfg idx, Registry.of_factory f) := by
  cases h : f.creators cfg.processor_type <;>
    simp [Registry.create_processor, Registry.of_factory, create_processor, h,
      RegisteringCreator.of_creator, RegisteringCreator.call]

theorem static_cast_int_of_lt (u : Nat) (h : u < 2 ^ 31) : static_cast_int u = (u : Int) := by
  have h32 : u % 2 ^ 32 = u := Nat.mod_eq_of_lt (by omega)
  unfold static_cast_int
  rw [h32, if_pos h]

theorem static_cast_int_of_ge (u : Nat) (h : 2 ^ 31 ≤ u) (h32 : u < 2 ^ 32) :
    static_cast_int u = (u : Int) - 2 ^ 32 := by
  have hmod : u % 2 ^ 32 = u := Nat.mod_eq_of_lt h32
  have hn : ¬ u < 2 ^ 31 := by omega
  unfold static_cast_int
  rw [hmod, if_neg hn]

/-- Every stage a default creator returns is either the libplacebo stage, holding the device
index as passed, or a stage holding `static_cast<int>` of it. -/
theorem default_stage_device (ev : ProcessorType → Int) (f : ProcessorFactory)
    (cfg : ProcessorConfig) (idx : Nat) (ps : List Processor)
    (hres : (create_processor ev f.init_default_processors cfg idx).result = .ok ps) :
    ∀ p ∈ ps, (p.isFilterLibplacebo = true ∧ p.device = (idx : Int))
      ∨ (p.isFilterLibplacebo = false ∧ p.device = static_cast_int idx) := by
  cases htag : cfg.processor_type with
  | Libplacebo =>
    rw [create_default_Libplacebo ev f cfg idx htag] at hres
    unfold libplacebo_creator at hres
    cases hc : cfg.config <;>
      simp only [hc, get_if_LibplaceboConfig, get_if_LibplaceboConfig_RIFEConfig] at hres <;>
      (try split_ifs at hres) <;>
      simp at hres <;>
      subst hres <;>
      simp [make_InterpolatorRIFE, Processor.isFilterLibplacebo, Processor.device]
  | RealESRGAN =>
    rw [create_default_RealESRGAN ev f cfg idx htag] at hres
    unfold realesrgan_creator at hres
    cases hc : cfg.config <;>
      simp only [hc, get_if_RealESRGANConfig, get_if_RealESRGANConfig_RIFEConfig] at hres <;>
      (try split_ifs at hres) <;>
      simp at hres <;>
      subst hres <;>
      simp [make_InterpolatorRIFE, Processor.isFilterLibplacebo, Processor.device]
  | RealCUGAN =>
    rw [create_default_RealCUGAN ev f cfg idx htag] at hres
    unfold realcugan_creator at hres
    cases hc : cfg.config <;>
      simp only [hc, get_if_RealCUGANConfig, get_if_RealCUGANConfig_RIFEConfig] at hres <;>
      (try split_ifs at hres) <;>
      simp at hres <;>
      subst hres <;>
      simp [make_InterpolatorRIFE, Processor.isFilterLibplacebo, Processor.device]
  | RIFE =>
    rw [create_default_RIFE ev f cfg idx htag] at hres
    unfold rife_creator at hres
    cases hc : cfg.config <;>
      simp only [hc, get_RIFEConfig] at hres <;>
      (try split_ifs at hres) <;>
      simp at hres <;>
      subst hres <;>
      simp [make_InterpolatorRIFE, Processor.isFilterLibplacebo, Processor.device]

/-- C10 (counterexample): with device index 2^31 a well-formed RealESRGAN config is accepted and
the one stage returned is bound to device -2^31, which is not the requested index. -/
theorem device_index_two_pow_31_is_not_preserved :
    (create_processor (fun _ => 0) ProcessorFactory.empty.init_default_processors
        ⟨.RealESRGAN, 0, 0, 4, 3, .realesrgan ⟨true, "realesrgan-plus"⟩⟩ 2147483648).result
      = .ok [.FilterRealesrgan (-2147483648) true 4 3 "realesrgan-plus"]
    ∧ (Processor.FilterRealesrgan (-2147483648) true 4 3 "realesrgan-plus").device
      ≠ ((2147483648 : Nat) : Int) :=
  ⟨rfl, by decide⟩

/-- C10 (amended): for every 32-bit unsigned device index and every config accepted by a default
creator, each stage of the returned sequence is bound as follows: to the requested index when
the index is below 2^31; to the requested index, whatever it is, when the stage is the
libplacebo stage (it receives the `uint32_t` value as it is); and to the requested index
minus 2^32, the value of `static_cast<int>`, when the index is 2^31 or above and the stage is a
RealESRGAN, RealCUGAN or RIFE stage. -/
theorem stage_device_index_through_int_cast (ev : ProcessorType → Int) (f : ProcessorFactory)
    (cfg : ProcessorConfig) (idx : Nat) (ps : List Processor) (p : Processor)
    (hidx : idx < 2 ^ 32)
    (hres : (create_processor ev f.init_default_processors cfg idx).result = .ok ps)
    (hp : p ∈ ps) :
    (idx < 2 ^ 31 → p.device = (idx : Int))
      ∧ (p.isFilterLibplacebo = true → p.device = (idx : Int))
      ∧ (2 ^ 31 ≤ idx → p.isFilterLibplacebo = false → p.device = (idx : Int) - 2 ^ 32) := by
  rcases default_stage_device ev f cfg idx ps hres p hp with ⟨hl, hd⟩ | ⟨hl, hd⟩
  · refine ⟨fun _ => hd, fun _ => hd, fun _ hn => ?_⟩
    rw [hl] at hn
    exact absurd hn (by decide)
  · refine ⟨fun hlt => ?_, fun hy => ?_, fun hge _ => ?_⟩
    · rw [hd, static_cast_int_of_lt idx hlt]
    · rw [hl] at hy
      exact absurd hy (by decide)
    · rw [hd, static_cast_int_of_ge idx hge hidx]

/-- Witness for C10 (amended): a valid Libplacebo pair at device index 2^31; the interpolation
stage of the returned sequence is bound to 2^31 - 2^32. -/
theorem stage_device_index_through_int_cast_witness :
    (2147483648 < 2 ^ 31 →
        (Processor.InterpolatorRIFE (-2147483648) true false true 2 "rife-v4.6").device
          = ((2147483648 : Nat) : Int))
      ∧ ((Processor.InterpolatorRIFE (-2147483648) true false true 2
            "rife-v4.6").isFilterLibplacebo = true →
        (Processor.InterpolatorRIFE (-2147483648) true false true 2 "rife-v4.6").device
          = ((2147483648 : Nat) : Int))
      ∧ (2 ^ 31 ≤ 2147483648 →
        (Processor.InterpolatorRIFE (-2147483648) true false true 2
            "rife-v4.6").isFilterLibplacebo = false →
        (Processor.InterpolatorRIFE (-2147483648) true false true 2 "rife-v4.6").device
          = ((2147483648 : Nat) : Int) - 2 ^ 32) :=
  stage_device_index_through_int_cast (fun _ => 0) ProcessorFactory.empty
    ⟨.Libplacebo, 1920, 1080, 0, 0,
      .libplacebo_rife (⟨"upscale.glsl"⟩, ⟨true, false, true, 2, "rife-v4.6"⟩)⟩
    2147483648
    [.FilterLibplacebo 2147483648 "upscale.glsl" 1920 1080,
     .InterpolatorRIFE (-2147483648) true false true 2 "rife-v4.6"]
    (.InterpolatorRIFE (-2147483648) true false true 2 "rife-v4.6")
    (by decide) rfl (by simp)

/-! ## C11: one critical diagnostic with every empty result -/

/-- The three ways a call on the default registry can end: the empty sequence after exactly one
critical diagnostic, a non-empty sequence after none, or an exception. -/
theorem default_outcome_shape (ev : ProcessorType → Int) (f : ProcessorFactory)
    (cfg : ProcessorConfig) (idx : Nat) :
    ((create_processor ev f.init_default_processors cfg idx).result = .ok []
        ∧ (create_processor ev f.init_default_processors cfg idx).criticals = 1)
      ∨ (∃ p ps, (create_processor ev f.init_default_processors cfg idx).result = .ok (p :: ps)
        ∧ (create_processor ev f.init_default_processors cfg idx).criticals = 0)
      ∨ (∃ e, (create_processor ev f.init_default_processors cfg idx).result = .error e) := by
  cases htag : cfg.processor_type with
  | Libplacebo =>
    rw [create_default_Libplacebo ev f cfg idx htag]
    unfold libplacebo_creator
    cases hc : cfg.config <;>
      simp only [get_if_LibplaceboConfig, get_if_LibplaceboConfig_RIFEConfig] <;>
      (try split_ifs) <;>
      simp [Outcome.criticals, Event.isCritical]
  | RealESRGAN =>
    rw [create_default_RealESRGAN ev f cfg idx htag]
    unfold realesrgan_creator
    cases hc : cfg.config <;>
      simp only [get_if_RealESRGANConfig, get_if_RealESRGANConfig_RIFEConfig] <;>
      (try split_ifs) <;>
      simp [Outcome.criticals, Event.isCritical]
  | RealCUGAN =>
    rw [create_default_RealCUGAN ev f cfg idx htag]
    unfold realcugan_creator
    cases hc : cfg.config <;>
      simp only [get_if_RealCUGANConfig, get_if_RealCUGANConfig_RIFEConfig] <;>
      (try split_ifs) <;>
      simp [Outcome.criticals, Event.isCritical]
  | RIFE =>
    rw [create_default_RIFE ev f cfg idx htag]
    unfold rife_creator
    cases hc : cfg.config <;>
      simp only [get_RIFEConfig] <;>
      (try split_ifs) <;>
      simp [Outcome.criticals, Event.isCritical] <;>
      exact ⟨Exception.bad_variant_access, trivial⟩

/-- C11: for every config and device index, a `create_processor` call on the default registry
that returns the empty sequence has emitted exactly one critical diagnostic, and a call that
returns a non-empty sequence has emitted none; this covers configs that fail several checks at
once. -/
theorem empty_result_has_one_critical_and_nonempty_none (ev : ProcessorType → Int)
    (f : ProcessorFactory) (cfg : ProcessorConfig) (idx : Nat) (ps : List Processor)
    (hres : (create_processor ev f.init_default_processors cfg idx).result = .ok ps) :
    (ps = [] → (create_processor ev f.init_default_processors cfg idx).criticals = 1)
      ∧ (ps ≠ [] → (create_processor ev f.init_default_processors cfg idx).criticals = 0) := by
  rcases default_outcome_shape ev f cfg idx with ⟨h0, hc⟩ | ⟨p, qs, h1, hc⟩ | ⟨e, he⟩
  · rw [h0] at hres
    have hps : ps = [] := by simpa using hres.symm
    exact ⟨fun _ => hc, fun hne => absurd hps hne⟩
  · rw [h1] at hres
    have hps : ps = p :: qs := by simpa using hres.symm
    refine ⟨fun hnil => ?_, fun _ => hc⟩
    rw [hps] at hnil
    exact absurd hnil (by simp)
  · rw [he] at hres
    cases hres

/-- Witness for C11: a RealCUGAN pair failing three checks at once (scaling factor 0, both model
names empty) returns the empty sequence after one critical diagnostic. -/
theorem empty_result_has_one_critical_and_nonempty_none_witness :
    (([] : List Processor) = [] →
        (create_processor (fun _ => 0) ProcessorFactory.empty.init_default_processors
          ⟨.RealCUGAN, 0, 0, 0, 0,
            .realcugan_rife (⟨false, 2, 3, ""⟩, ⟨true, false, true, 2, ""⟩)⟩ 1).criticals = 1)
      ∧ (([] : List Processor) ≠ [] →
        (create_processor (fun _ => 0) ProcessorFactory.empty.init_default_processors
          ⟨.RealCUGAN, 0, 0, 0, 0,
            .realcugan_rife (⟨false, 2, 3, ""⟩, ⟨true, false, true, 2, ""⟩)⟩ 1).criticals = 0) :=
  empty_result_has_one_critical_and_nonempty_none (fun _ => 0) ProcessorFactory.empty
    ⟨.RealCUGAN, 0, 0, 0, 0, .realcugan_rife (⟨false, 2, 3, ""⟩, ⟨true, false, true, 2, ""⟩)⟩
    1 [] rfl

/-! ## C12, C13: default registration -/

/-- C12: after `init_default_processors` on any registry, empty or not, each of the four tags
Libplacebo, RealESRGAN, RealCUGAN and RIFE has a creator (the default one), so for every config
the lookup of `create_processor` succeeds and the call is the call of that creator; the
"Processor type not registered" branch is not taken. -/
theorem init_default_processors_registers_all_tags (ev : ProcessorType → Int)
    (f : ProcessorFactory) :
    f.init_default_processors.creators .Libplacebo = some libplacebo_creator
      ∧ f.init_default_processors.creators .RealESRGAN = some realesrgan_creator
      ∧ f.init_default_processors.creators .RealCUGAN = some realcugan_creator
      ∧ f.init_default_processors.creators .RIFE = some rife_creator
      ∧ ∀ (cfg : ProcessorConfig) (idx : Nat),
          ∃ c, f.init_default_processors.creators cfg.processor_type = some c
            ∧ create_processor ev f.init_default_processors cfg idx = c cfg idx := by
  refine ⟨by simp [init_default_processors, register_processor],
    by simp [init_default_processors, register_processor],
    by simp [init_default_processors, register_processor],
    by simp [init_default_processors, register_processor], fun cfg idx => ?_⟩
  cases htag : cfg.processor_type <;>
    simp [create_processor, init_default_processors, register_processor, htag]

/-- C13: `init_default_processors` is idempotent: for every registry, applying it twice gives the
same registry as applying it once, so `create_processor` has the same outcome (returned sequence
and diagnostics) for every config and device index. -/
theorem init_default_processors_idempotent (ev : ProcessorType → Int) (f : ProcessorFactory)
    (cfg : ProcessorConfig) (idx : Nat) :
    f.init_default_processors.init_default_processors = f.init_default_processors
      ∧ create_processor ev f.init_default_processors.init_default_processors cfg idx
        = create_processor ev f.init_default_processors cfg idx := by
  have hreg : f.init_default_processors.init_default_processors
      = f.init_default_processors := by
    simp only [init_default_processors, register_processor, ProcessorFactory.mk.injEq]
    funext t
    cases t <;> simp
  exact ⟨hreg, by rw [hreg]⟩

/-! ## C15: order of the Libplacebo checks -/

/-- C15 (counterexample): a Libplacebo config with an empty shader path and width and height 0
gets the shader-path diagnostic, not the one about output width and height. -/
theorem libplacebo_empty_path_and_bad_geometry_reports_path :
    (create_processor (fun _ => 0) ProcessorFactory.empty.init_default_processors
        ⟨.Libplacebo, 0, 0, 0, 0, .libplacebo ⟨""⟩⟩ 0).events
      = [.critical "Shader path must be provided for the libplacebo filter" []]
    ∧ (create_processor (fun _ => 0) ProcessorFactory.empty.init_default_processors
        ⟨.Libplacebo, 0, 0, 0, 0, .libplacebo ⟨""⟩⟩ 0).events
      ≠ [.critical "Output width and height must be provided for the libplacebo filter" []] := by
  have h : (create_processor (fun _ => 0) ProcessorFactory.empty.init_default_processors
        ⟨.Libplacebo, 0, 0, 0, 0, .libplacebo ⟨""⟩⟩ 0).events
      = [.critical "Shader path must be provided for the libplacebo filter" []] := rfl
  refine ⟨h, ?_⟩
  rw [h]
  decide

/-- C15 (amended): for every Libplacebo config with a matching payload (single or paired), the
checks run shader path first, geometry second: when the shader path is empty the only action is
the shader-path diagnostic, also when width or height is at most 0; when the shader path is
non-empty and width or height is at most 0 the only action is the diagnostic about output width
and height; so the geometry diagnostic is emitted only when the shader path is non-empty. -/
theorem libplacebo_checks_path_before_geometry (ev : ProcessorType → Int)
    (f : ProcessorFactory) (cfg : ProcessorConfig) (idx : Nat) (c : LibplaceboConfig)
    (htag : cfg.processor_type = .Libplacebo)
    (hshape : cfg.config = .libplacebo c ∨ ∃ r, cfg.config = .libplacebo_rife (c, r)) :
    (c.shader_path = "" →
        (create_processor ev f.init_default_processors cfg idx).events
          = [.critical "Shader path must be provided for the libplacebo filter" []])
      ∧ (c.shader_path ≠ "" → (cfg.width ≤ 0 ∨ cfg.height ≤ 0) →
        (create_processor ev f.init_default_processors cfg idx).events
          = [.critical "Output width and height must be provided for the libplacebo filter" []])
      ∧ (Event.critical "Output width and height must be provided for the libplacebo filter" []
          ∈ (create_processor ev f.init_default_processors cfg idx).events →
        c.shader_path ≠ "" ∧ (cfg.width ≤ 0 ∨ cfg.height ≤ 0)) := by
  rw [create_default_Libplacebo ev f cfg idx htag]
  rcases hshape with hc | ⟨r, hc⟩ <;>
  · simp only [libplacebo_creator, hc, get_if_LibplaceboConfig,
      get_if_LibplaceboConfig_RIFEConfig]
    refine ⟨fun hp => by simp [hp], fun hp hg => by simp [hp, hg], fun hmem => ?_⟩
    split_ifs at hmem with h1 h2 <;> simp at hmem
    exact ⟨h1, h2⟩

/-- Witness for C15 (amended): a Libplacebo pair with an empty shader path and height 0. -/
theorem libplacebo_checks_path_before_geometry_witness :
    (("" : String) = "" →
        (create_processor (fun _ => 0) ProcessorFactory.empty.init_default_processors
          ⟨.Libplacebo, 1920, 0, 0, 0,
            .libplacebo_rife (⟨""⟩, ⟨true, false, true, 2, "rife-v4.6"⟩)⟩ 1).events
          = [.critical "Shader path must be provided for the libplacebo filter" []])
      ∧ (("" : String) ≠ "" → ((1920 : Int) ≤ 0 ∨ (0 : Int) ≤ 0) →
        (create_processor (fun _ => 0) ProcessorFactory.empty.init_default_processors
          ⟨.Libplacebo, 1920, 0, 0, 0,
            .libplacebo_rife (⟨""⟩, ⟨true, false, true, 2, "rife-v4.6"⟩)⟩ 1).events
          = [.critical "Output width and height must be provided for the libplacebo filter" []])
      ∧ (Event.critical "Output width and height must be provided for the libplacebo filter" []
          ∈ (create_processor (fun _ => 0) ProcessorFactory.empty.init_default_processors
            ⟨.Libplacebo, 1920, 0, 0, 0,
              .libplacebo_rife (⟨""⟩, ⟨true, false, true, 2, "rife-v4.6"⟩)⟩ 1).events →
        ("" : String) ≠ "" ∧ ((1920 : Int) ≤ 0 ∨ (0 : Int) ≤ 0)) :=
  libplacebo_checks_path_before_geometry (fun _ => 0) ProcessorFactory.empty
    ⟨.Libplacebo, 1920, 0, 0, 0, .libplacebo_rife (⟨""⟩, ⟨true, false, true, 2, "rife-v4.6"⟩)⟩
    1 ⟨""⟩ rfl (Or.inr ⟨_, rfl⟩)

/-! ## C16: order of the RealESRGAN and RealCUGAN checks -/

/-- C16: for RealESRGAN and for RealCUGAN, a config with the family tag, a matching payload
(single or paired) and a scaling factor at most 0 has as its only action the scaling-factor
diagnostic of the family, also when the model name is empty and, for a pair, the interpolation
model name is empty; and whenever a model-name diagnostic (of the family or of RIFE) is emitted
under the family tag, the scaling factor is positive. -/
theorem neural_sr_checks_scaling_factor_first (ev : ProcessorType → Int)
    (f : ProcessorFactory) (cfg : ProcessorConfig) (idx : Nat) :
    (∀ c : RealESRGANConfig, cfg.processor_type = .RealESRGAN →
      (cfg.config = .realesrgan c ∨ ∃ r, cfg.config = .realesrgan_rife (c, r)) →
      cfg.scaling_factor ≤ 0 →
      (create_processor ev f.init_default_processors cfg idx).events
        = [.critical "Scaling factor must be provided for the RealESRGAN filter" []])
    ∧ (cfg.processor_type = .RealESRGAN →
      (Event.critical "Model name must be provided for the RealESRGAN filter" []
          ∈ (create_processor ev f.init_default_processors cfg idx).events
        ∨ Event.critical "Model name must be provided for the RIFE filter" []
          ∈ (create_processor ev f.init_default_processors cfg idx).events) →
      0 < cfg.scaling_factor)
    ∧ (∀ c : RealCUGANConfig, cfg.processor_type = .RealCUGAN →
      (cfg.config = .realcugan c ∨ ∃ r, cfg.config = .realcugan_rife (c, r)) →
      cfg.scaling_factor ≤ 0 →
      (create_processor ev f.init_default_processors cfg idx).events
        = [.critical "Scaling factor must be provided for the RealCUGAN filter" []])
    ∧ (cfg.processor_type = .RealCUGAN →
      (Event.critical "Model name must be provided for the RealCUGAN filter" []
          ∈ (create_processor ev f.init_default_processors cfg idx).events
        ∨ Event.critical "Model name must be provided for the RIFE filter" []
          ∈ (create_processor ev f.init_default_processors cfg idx).events) →
      0 < cfg.scaling_factor) := by
  refine ⟨fun c htag hc hs => ?_, fun htag hmem => ?_, fun c htag hc hs => ?_,
    fun htag hmem => ?_⟩
  · rw [create_default_RealESRGAN ev f cfg idx htag]
    rcases hc with hc | ⟨r, hc⟩ <;>
      simp [realesrgan_creator, hc, get_if_RealESRGANConfig,
        get_if_RealESRGANConfig_RIFEConfig, hs]
  · rw [create_default_RealESRGAN ev f cfg idx htag] at hmem
    unfold realesrgan_creator at hmem
    by_cases hs : cfg.scaling_factor ≤ 0
    · exfalso
      cases hc : cfg.config <;>
        simp [hc, get_if_RealESRGANConfig, get_if_RealESRGANConfig_RIFEConfig, hs] at hmem
    · exact not_le.mp hs
  · rw [create_default_RealCUGAN ev f cfg idx htag]
    rcases hc with hc | ⟨r, hc⟩ <;>
      simp [realcugan_creator, hc, get_if_RealCUGANConfig,
        get_if_RealCUGANConfig_RIFEConfig, hs]
  · rw [create_default_RealCUGAN ev f cfg idx htag] at hmem
    unfold realcugan_creator at hmem
    by_cases hs : cfg.scaling_factor ≤ 0
    · exfalso
      cases hc : cfg.config <;>
        simp [hc, get_if_RealCUGANConfig, get_if_RealCUGANConfig_RIFEConfig, hs] at hmem
    · exact not_le.mp hs

/-- Witness for C16: a RealESRGAN pair and a single RealCUGAN config with scaling factor 0 and
empty model names (the first is the first scenario of the spec with every later check failing
too). -/
theorem neural_sr_checks_scaling_factor_first_witness :
    (create_processor (fun _ => 0) ProcessorFactory.empty.init_default_processors
        ⟨.RealESRGAN, 0, 0, 0, 0,
          .realesrgan_rife (⟨true, ""⟩, ⟨true, false, true, 2, ""⟩)⟩ 1).events
      = [.critical "Scaling factor must be provided for the RealESRGAN filter" []]
    ∧ (create_processor (fun _ => 0) ProcessorFactory.empty.init_default_processors
        ⟨.RealCUGAN, 0, 0, -1, 0, .realcugan ⟨false, 2, 3, ""⟩⟩ 1).events
      = [.critical "Scaling factor must be provided for the RealCUGAN filter" []] :=
  ⟨(neural_sr_checks_scaling_factor_first _ _ _ _).1 _ rfl (Or.inr ⟨_, rfl⟩) (by decide),
   (neural_sr_checks_scaling_factor_first _ _ _ _).2.2.1 _ rfl (Or.inl rfl) (by decide)⟩

/-! ## C18: a pair is built as its two single configs -/

/-- C18: for each pairable family, every family config `c`, every `RIFEConfig` `r`, all shared
fields and every device index: if the single config with payload `c` under the family tag and
the config with payload `r` under the RIFE tag are both accepted by the default registry (each
returns a non-empty sequence), then the paired config `(c, r)` under the family tag returns the
sequence of the single config followed by the sequence of the RIFE config. -/
theorem paired_result_is_concatenation (ev : ProcessorType → Int) (f : ProcessorFactory)
    (width height scaling_factor noise_level : Int) (idx : Nat) (r : RIFEConfig)
    (ps qs : List Processor) (hps : ps ≠ []) (hqs : qs ≠ [])
    (hrife : (create_processor ev f.init_default_processors
        ⟨.RIFE, width, height, scaling_factor, noise_level, .rife r⟩ idx).result = .ok qs) :
    (∀ c : LibplaceboConfig,
      (create_processor ev f.init_default_processors
        ⟨.Libplacebo, width, height, scaling_factor, noise_level, .libplacebo c⟩ idx).result
        = .ok ps →
      (create_processor ev f.init_default_processors
        ⟨.Libplacebo, width, height, scaling_factor, noise_level, .libplacebo_rife (c, r)⟩
        idx).result = .ok (ps ++ qs))
    ∧ (∀ c : RealESRGANConfig,
      (create_processor ev f.init_default_processors
        ⟨.RealESRGAN, width, height, scaling_factor, noise_level, .realesrgan c⟩ idx).result
        = .ok ps →
      (create_processor ev f.init_default_processors
        ⟨.RealESRGAN, width, height, scaling_factor, noise_level, .realesrgan_rife (c, r)⟩
        idx).result = .ok (ps ++ qs))
    ∧ (∀ c : RealCUGANConfig,
      (create_processor ev f.init_default_processors
        ⟨.RealCUGAN, width, height, scaling_factor, noise_level, .realcugan c⟩ idx).result
        = .ok ps →
      (create_processor ev f.init_default_processors
        ⟨.RealCUGAN, width, height, scaling_factor, noise_level, .realcugan_rife (c, r)⟩
        idx).result = .ok (ps ++ qs)) := by
  rw [create_default_RIFE ev f _ idx rfl] at hrife
  simp only [rife_creator, get_RIFEConfig] at hrife
  have hr : r.model_name ≠ "" := by
    intro hr
    simp [hr] at hrife
    exact hqs hrife
  simp only [hr, if_false, Except.ok.injEq] at hrife
  subst hrife
  refine ⟨fun c hsingle => ?_, fun c hsingle => ?_, fun c hsingle => ?_⟩
  · rw [create_default_Libplacebo ev f _ idx rfl] at hsingle ⊢
    simp only [libplacebo_creator, get_if_LibplaceboConfig,
      get_if_LibplaceboConfig_RIFEConfig] at hsingle ⊢
    split_ifs at hsingle ⊢ <;> simp at hsingle <;> subst hsingle <;> first
      | exact absurd rfl hps
      | simp
  · rw [create_default_RealESRGAN ev f _ idx rfl] at hsingle ⊢
    simp only [realesrgan_creator, get_if_RealESRGANConfig,
      get_if_RealESRGANConfig_RIFEConfig] at hsingle ⊢
    split_ifs at hsingle ⊢ <;> simp at hsingle <;> subst hsingle <;> first
      | exact absurd rfl hps
      | simp
  · rw [create_default_RealCUGAN ev f _ idx rfl] at hsingle ⊢
    simp only [realcugan_creator, get_if_RealCUGANConfig,
      get_if_RealCUGANConfig_RIFEConfig] at hsingle ⊢
    split_ifs at hsingle ⊢ <;> simp at hsingle <;> subst hsingle <;> first
      | exact absurd rfl hps
      | simp

/-- Witness for C18: a RealESRGAN config and a RIFE config that are each accepted at device
index 1, and their pair. -/
theorem paired_result_is_concatenation_witness :
    (create_processor (fun _ => 0) ProcessorFactory.empty.init_default_processors
        ⟨.RealESRGAN, 1920, 1080, 4, 3,
          .realesrgan_rife (⟨true, "realesrgan-plus"⟩, ⟨true, false, true, 2, "rife-v4.6"⟩)⟩
        1).result
      = .ok ([.FilterRealesrgan (static_cast_int 1) true 4 3 "realesrgan-plus"]
          ++ [.InterpolatorRIFE (static_cast_int 1) true false true 2 "rife-v4.6"]) :=
  (paired_result_is_concatenation (fun _ => 0) ProcessorFactory.empty 1920 1080 4 3 1
    ⟨true, false, true, 2, "rife-v4.6"⟩
    [.FilterRealesrgan (static_cast_int 1) true 4 3 "realesrgan-plus"]
    [.InterpolatorRIFE (static_cast_int 1) true false true 2 "rife-v4.6"]
    (by simp) (by simp) rfl).2.1 ⟨true, "realesrgan-plus"⟩ rfl

/-! ## C19: registration touches one tag -/

/-- C19: `register_processor t c` changes only the entry of tag `t`: on every registry, for every
tag `u` other than `t`, the creator registered for `u`, or its absence, is the same after the
call as before, so `create_processor` has the same outcome for every config tagged `u`. -/
theorem register_processor_leaves_other_tags (ev : ProcessorType → Int) (f : ProcessorFactory)
    (t u : ProcessorType) (c : Creator) (hne : u ≠ t) :
    (f.register_processor t c).creators u = f.creators u
      ∧ ∀ (cfg : ProcessorConfig) (idx : Nat), cfg.processor_type = u →
          create_processor ev (f.register_processor t c) cfg idx
            = create_processor ev f cfg idx := by
  have hlook : (f.register_processor t c).creators u = f.creators u := by
    simp [register_processor, hne]
  refine ⟨hlook, fun cfg idx htag => ?_⟩
  subst htag
  simp only [create_processor, hlook]

/-- Witness for C19: registering a custom RIFE creator on the default registry leaves the
RealCUGAN entry as it was. -/
theorem register_processor_leaves_other_tags_witness :
    ((ProcessorFactory.empty.init_default_processors).register_processor .RIFE
          (fun _ _ => ⟨[.critical "custom" []], .ok []⟩)).creators .RealCUGAN
        = (ProcessorFactory.empty.init_default_processors).creators .RealCUGAN
      ∧ ∀ (cfg : ProcessorConfig) (idx : Nat), cfg.processor_type = .RealCUGAN →
          create_processor (fun _ => 0)
              ((ProcessorFactory.empty.init_default_processors).register_processor .RIFE
                (fun _ _ => ⟨[.critical "custom" []], .ok []⟩)) cfg idx
            = create_processor (fun _ => 0) ProcessorFactory.empty.init_default_processors
                cfg idx :=
  register_processor_leaves_other_tags _ _ _ _ _ (by decide)

/-! ## C17: the singleton in a sequential run -/

/-- Once `initialized` is set, a call of `instance` changes nothing. -/
theorem instance_call_of_initialized (s : Statics) (h : s.initialized = true) :
    instance_call s = s := by
  simp [instance_call, h]

/-- Client calls keep `initialized` set and do not run `init_default_processors` again. -/
theorem run_calls_keeps_initialized (calls : List FactoryCall) (s : Statics)
    (h : s.initialized = true) :
    (run_calls s calls).initialized = true ∧ (run_calls s calls).init_calls = s.init_calls := by
  induction calls generalizing s with
  | nil => exact ⟨h, rfl⟩
  | cons call rest ih =>
    have hstep : (FactoryCall.exec s call).initialized = true
        ∧ (FactoryCall.exec s call).init_calls = s.init_calls := by
      cases call with
      | get_instance =>
        simp only [FactoryCall.exec]
        rw [instance_call_of_initialized s h]
        exact ⟨h, rfl⟩
      | register_processor type creator => exact ⟨h, rfl⟩
    have hrest := ih (FactoryCall.exec s call) hstep.1
    simp only [run_calls, List.foldl_cons] at hrest ⊢
    exact ⟨hrest.1, hrest.2.trans hstep.2⟩

/-- Further calls of `instance` leave the statics as they are once `initialized` is set. -/
theorem run_calls_replicate_get_instance (n : Nat) (s : Statics) (h : s.initialized = true) :
    run_calls s (List.replicate n FactoryCall.get_instance) = s := by
  induction n with
  | zero => rfl
  | succ k ih =>
    simp only [run_calls, List.replicate_succ, List.foldl_cons, FactoryCall.exec]
    rw [instance_call_of_initialized s h]
    exact ih

/-- Once `initialized` is set, a run of client calls is the run of their registrations on the
registry; the flag and the count of `init_default_processors` runs stay as they are. -/
theorem run_calls_of_initialized (calls : List FactoryCall) (s : Statics)
    (h : s.initialized = true) :
    run_calls s calls = ⟨calls.foldl FactoryCall.on_registry s.factory, true, s.init_calls⟩ := by
  induction calls generalizing s with
  | nil =>
    cases s with
    | mk factory initialized init_calls =>
      simp only at h
      subst h
      rfl
  | cons call rest ih =>
    have hexec : FactoryCall.exec s call
        = ⟨FactoryCall.on_registry s.factory call, true, s.init_calls⟩ := by
      cases call with
      | get_instance =>
        simp only [FactoryCall.exec, FactoryCall.on_registry]
        rw [instance_call_of_initialized s h]
        cases s with
        | mk factory initialized init_calls =>
          simp only at h
          subst h
          rfl
      | register_processor type creator =>
        simp only [FactoryCall.exec, FactoryCall.on_registry, h]
    have hrest := ih (FactoryCall.exec s call) (by rw [hexec])
    simp only [run_calls, List.foldl_cons] at hrest ⊢
    rw [hrest, hexec]

/-- C17: in every sequential run that starts with a call of `instance()` and goes on with any
calls of `instance()` and of `register_processor` on the returned registry: the first
`instance()` call applies `init_default_processors` to the empty registry, sets `initialized`
and is the one execution of `init_default_processors`; the whole run ends with the default
registry to which the registrations of the run have been applied in order, with
`init_default_processors` still run exactly once; a further `instance()` call leaves the
registry as it is, so every call returns the same registry; and a creator registered for any tag
after the first `instance()` call is still the creator of that tag after any number of further
`instance()` calls. -/
theorem instance_initializes_once (calls : List FactoryCall) :
    instance_call Statics.initial = ⟨ProcessorFactory.empty.init_default_processors, true, 1⟩
      ∧ run_calls Statics.initial (.get_instance :: calls)
          = ⟨calls.foldl FactoryCall.on_registry ProcessorFactory.empty.init_default_processors,
              true, 1⟩
      ∧ (instance_call Statics.initial).init_calls = 1
      ∧ (run_calls Statics.initial (.get_instance :: calls)).init_calls = 1
      ∧ instance_call (run_calls Statics.initial (.get_instance :: calls))
          = run_calls Statics.initial (.get_instance :: calls)
      ∧ ∀ (t : ProcessorType) (c : Creator) (n : Nat),
          (run_calls Statics.initial
              (.get_instance :: calls ++ .register_processor t c
                :: List.replicate n .get_instance)).factory.creators t = some c := by
  have hfirst : (instance_call Statics.initial).initialized = true := rfl
  have hrun := run_calls_keeps_initialized calls (instance_call Statics.initial) hfirst
  have hcons : run_calls Statics.initial (.get_instance :: calls)
      = run_calls (instance_call Statics.initial) calls := rfl
  refine ⟨rfl, ?_, rfl, ?_, ?_, fun t c n => ?_⟩
  · rw [hcons, run_calls_of_initialized calls (instance_call Statics.initial) hfirst]
    rfl
  · rw [hcons, hrun.2]
    rfl
  · rw [hcons]
    exact instance_call_of_initialized _ hrun.1
  · have happ : run_calls Statics.initial
          (.get_instance :: calls ++ .register_processor t c
            :: List.replicate n .get_instance)
        = run_calls (FactoryCall.exec (run_calls (instance_call Statics.initial) calls)
            (.register_processor t c)) (List.replicate n .get_instance) := by
      simp [run_calls, List.foldl_append, FactoryCall.exec]
    have hreg : (FactoryCall.exec (run_calls (instance_call Statics.initial) calls)
        (.register_processor t c)).initialized = true := hrun.1
    rw [happ, run_calls_replicate_get_instance n _ hreg]
    simp [FactoryCall.exec, register_processor]

/-! ## C14: two threads in their first call of `instance` -/

/-- The statement steps agree with the call run as a whole: a thread that takes four steps from
the entry of `instance` without another thread stepping in between ends returned, with the
statics of `instance_call`. -/
theorem instance_steps_alone (s : Statics) (pc : Nat → InstancePc) (tid : Nat)
    (hpc : pc tid = .test) :
    (Threads.run ⟨s, pc⟩ [tid, tid, tid, tid]).statics = instance_call s
      ∧ (Threads.run ⟨s, pc⟩ [tid, tid, tid, tid]).pc tid = .returned := by
  cases hinit : s.initialized <;>
    simp [Threads.run, Threads.step, instance_step, instance_call, hpc, hinit]

/-- C14 (the code departs from the claim): two threads enter `instance()` for the first time and
both execute the test `if (!initialized)` before either executes `initialized = true`.  Each of
them then calls `init_default_processors`: when both have returned, default registration has
run twice, not once. -/
theorem concurrent_first_calls_initialize_twice :
    (Threads.run Threads.start [0, 1, 0, 0, 0, 1, 1, 1]).statics.init_calls = 2
      ∧ (Threads.run Threads.start [0, 1, 0, 0, 0, 1, 1, 1]).pc 0 = .returned
      ∧ (Threads.run Threads.start [0, 1, 0, 0, 0, 1, 1, 1]).pc 1 = .returned
      ∧ (Threads.run Threads.start [0, 0, 0, 0, 1, 1, 1, 1]).statics.init_calls = 1 :=
  ⟨rfl, rfl, rfl, rfl⟩

end processors
end video2x
